import Mathlib

/-!
Verification of the task scheduling engine of BitfinexFundingData.

Shallow embedding of `src/scheduler/scheduler.go`, the retry loop of
`GetFundingStatsTask.Execute` in `src/task/task.go`, and the shutdown
sequence of `src/main.go`.

Modelling conventions:
* `time.Time` values and `time.Duration` values (int64 nanoseconds) are
  embedded as `Int`.
* Go `error` values are embedded as `Option GoErr` (`none` is the nil
  error); `ctx.Err()` after cancellation is the `GoErr.ctxCanceled` value.
* A Go channel is a bounded buffer `GoChan`; the elements of `taskQueue`
  (values of the opaque `Task` interface) are embedded as `Nat` task
  references, since the scheduler never inspects them.
* The `quit` channel of the scheduler is observed only through being
  closed, so it is embedded as the `quitClosed` flag, and `close(s.quit)`
  on an already closed channel is the Go runtime panic
  `GoPanic.closeOfClosedChannel`.
* Mutex-guarded critical sections (`s.mu`, `p.mu`) are embedded as single
  atomic state transitions.
* The points where concurrency resolves a race (which arm of a `select`
  fires first, when a ticker ticks) are inputs of the embedded functions:
  an event value or an event list states which arm won.
-/

namespace BitfinexScheduler

/-- Go error values seen by the engine: an opaque error produced by an API
call (identified by a code), or the `context.Canceled` error returned by
`ctx.Err()`. -/
inductive GoErr
  | apiErr (code : Nat)
  | ctxCanceled
deriving DecidableEq, Repr

/-- Go runtime panics reachable in this code: `close` of an already closed
channel (`Scheduler.Stop` on a scheduler whose `quit` channel is closed)
and `make(chan Task, n)` with negative `n`. -/
inductive GoPanic
  | closeOfClosedChannel
  | makechanSizeOutOfRange
deriving DecidableEq, Repr

/-- `RetryPolicy` (scheduler.go): `MaxRetries int`, `BackoffBase
time.Duration`. Both are Go integer types, embedded as `Int` (durations in
nanoseconds). -/
structure RetryPolicy where
  maxRetries : Int
  backoffBase : Int
deriving DecidableEq, Repr

/-- A buffered Go channel: `buf` is the queued elements in FIFO order,
`cap` the capacity fixed by `make`. -/
structure GoChan (α : Type) where
  buf : List α
  cap : Nat
deriving DecidableEq, Repr

/-- `PeriodicTask` (scheduler.go): embedded `BaseTask` fields plus
`interval` and `lastRun`. The opaque `runFunc` closure and the mutex `mu`
carry no state observable here: `runFunc` results enter the model as
parameters of `periodicExecute`, and `mu`-guarded sections are atomic
steps. -/
structure PeriodicTaskM where
  name : String
  priority : Int
  retryPolicy : RetryPolicy
  interval : Int
  lastRun : Int
deriving DecidableEq, Repr

/-- `Scheduler` (scheduler.go): `workers`, `queueSize`, the bounded
`taskQueue`, the `periodicTask` registry (`map[string]*PeriodicTask`,
embedded as an association list with first-match lookup), and the `quit`
channel observed as its closed flag. `wg` is not a data field here: which
goroutines it covers is recorded per spawn site by `wgRegistered`. -/
structure SchedulerM where
  workers : Int
  queueSize : Int
  taskQueue : GoChan Nat
  periodicTask : List (String × PeriodicTaskM)
  quitClosed : Bool
deriving DecidableEq, Repr

/-- `make(chan Task, size)`: panics when `size` is negative, otherwise an
empty buffer of capacity `size`. -/
def makeChan (size : Int) : Except GoPanic (GoChan Nat) :=
  if size < 0 then Except.error GoPanic.makechanSizeOutOfRange
  else Except.ok { buf := [], cap := size.toNat }

/-- `NewScheduler(workers, queueSize)`: builds the struct directly; no
validation of either argument is performed. The only failure is the
runtime panic raised by `make` on a negative `queueSize`. -/
def newScheduler (workers queueSize : Int) : Except GoPanic SchedulerM :=
  (makeChan queueSize).map fun ch =>
    { workers := workers
      queueSize := queueSize
      taskQueue := ch
      periodicTask := []
      quitClosed := false }

/-- Non-blocking send, `select { case ch <- a: ...; default: ... }`: append
when the buffer is below capacity, otherwise leave the channel unchanged.
The Bool records which arm ran. -/
def trySend {α : Type} (c : GoChan α) (a : α) : GoChan α × Bool :=
  if c.buf.length < c.cap then ({ c with buf := c.buf ++ [a] }, true)
  else (c, false)

/-- `Scheduler.SubmitTask(task)`: the non-blocking send on `s.taskQueue`.
Both arms of the select have empty bodies (the full-queue arm is only the
comment `Queue is full, can add handling logic here`), the outcome is
discarded, and the method returns nothing. -/
def submitTask (s : SchedulerM) (t : Nat) : SchedulerM :=
  { s with taskQueue := (trySend s.taskQueue t).1 }

/-- `Scheduler.Schedule(ctx, task)`: calls `SubmitTask` and returns `nil`
unconditionally. -/
def schedule (s : SchedulerM) (t : Nat) : SchedulerM × Option GoErr :=
  (submitTask s t, none)

/-- `Scheduler.Cancel(taskName)`: the body is the comment `Logic for
canceling tasks can be implemented here` followed by `return nil`; the
scheduler state is untouched. -/
def cancel (s : SchedulerM) (taskName : String) : SchedulerM × Option GoErr :=
  (s, none)

/-- Assignment `m[name] = task` on the registry map, as an association
list: the new binding shadows and drops any previous binding of the same
key; other keys keep their bindings. -/
def registryInsert (m : List (String × PeriodicTaskM)) (k : String)
    (v : PeriodicTaskM) : List (String × PeriodicTaskM) :=
  (k, v) :: m.filter (fun p => p.1 != k)

/-- `Scheduler.NewPeriodicTask(name, interval, runFunc, priority)`: builds
the handle with the fixed retry policy `{MaxRetries: 3, BackoffBase:
500ms}` and `lastRun = time.Now()` (the parameter `now`), then under
`s.mu` stores it in the registry at `name`, replacing any previous entry.
The opaque `runFunc` is not part of the handle state. -/
def newPeriodicTask (s : SchedulerM) (name : String) (interval : Int)
    (priority : Int) (now : Int) : SchedulerM × PeriodicTaskM :=
  let task : PeriodicTaskM :=
    { name := name
      priority := priority
      retryPolicy := { maxRetries := 3, backoffBase := 500000000 }
      interval := interval
      lastRun := now }
  ({ s with periodicTask := registryInsert s.periodicTask name task }, task)

/-- `PeriodicTask.ShouldRun()`: under `p.mu`, evaluates
`time.Since(p.lastRun) >= p.interval`, with `time.Since(t) = now - t`. -/
def shouldRun (p : PeriodicTaskM) (now : Int) : Bool :=
  decide (p.interval ≤ now - p.lastRun)

/-- `PeriodicTask.Execute(ctx)`: under `p.mu`, sets `lastRun =
time.Now()` (the entry time `now`), then returns `p.runFunc(ctx)` whose
result is the parameter `runResult`. -/
def periodicExecute (p : PeriodicTaskM) (now : Int)
    (runResult : Option GoErr) : PeriodicTaskM × Option GoErr :=
  ({ p with lastRun := now }, runResult)

/-- The body of `Scheduler.worker` for one task received from
`s.taskQueue`: `err := task.Execute(ctx)` is called once (its result is
the parameter `execResult`); on a non-nil error the code only tests
`policy.MaxRetries > 0` and the branch body is the comment `Actual retry
logic can be added here`, so no further invocation happens on any path.
Returned are the number of `Execute` invocations and the error, which the
worker discards. -/
def workerRunTask (policy : RetryPolicy) (execResult : Option GoErr) :
    Nat × Option GoErr :=
  match execResult with
  | some e => if 0 < policy.maxRetries then (1, some e) else (1, some e)
  | none => (1, none)

/-- `close(s.quit)`: Go panics when the channel is already closed. -/
def closeChan (alreadyClosed : Bool) : Except GoPanic Bool :=
  if alreadyClosed then Except.error GoPanic.closeOfClosedChannel
  else Except.ok true

/-- `Scheduler.Stop()`: `close(s.quit)` followed by `s.wg.Wait()`. The
wait changes no state; the observable effect is the closed quit channel,
or the panic when `quit` is already closed. -/
def stop (s : SchedulerM) : Except GoPanic SchedulerM :=
  (closeChan s.quitClosed).map fun _ => { s with quitClosed := true }

/-- The shutdown sequence of `main` (main.go): `NewScheduler(5, 50)`,
`defer scheduler.Stop()`, then on the termination signal an explicit
`scheduler.Stop()` followed by the deferred `Stop` when `main` returns. -/
def mainShutdownStops : Except GoPanic SchedulerM :=
  match newScheduler 5 50 with
  | Except.error e => Except.error e
  | Except.ok s =>
    match stop s with
    | Except.error e => Except.error e
    | Except.ok s1 => stop s1

/-- The goroutines the scheduler spawns: `Start` spawns `s.worker`
goroutines, `ScheduleWithDelay` spawns one timer goroutine,
`ScheduleRecurring` spawns one ticker goroutine. -/
inductive GoroutineKind
  | worker
  | delayTimer
  | recurringTicker
deriving DecidableEq, Repr

/-- Whether the spawn site registers the goroutine in `s.wg`: `Start` runs
`s.wg.Add(1)` before `go s.worker()`; `ScheduleWithDelay` and
`ScheduleRecurring` launch bare `go func()` with no `wg` interaction. -/
def wgRegistered : GoroutineKind → Bool
  | GoroutineKind.worker => true
  | GoroutineKind.delayTimer => false
  | GoroutineKind.recurringTicker => false

/-- Whether the goroutine selects on `s.quit`: the worker loop and the
`ScheduleRecurring` loop do; the `ScheduleWithDelay` goroutine selects
only on its timer and `ctx.Done()`. -/
def observesQuit : GoroutineKind → Bool
  | GoroutineKind.worker => true
  | GoroutineKind.delayTimer => false
  | GoroutineKind.recurringTicker => true

/-- The goroutines that can still be alive at the instant `Stop` returns:
`s.wg.Wait()` blocks exactly until every `wg`-registered goroutine has
exited, and gives no guarantee about the others. -/
def stopJoin (live : List GoroutineKind) : List GoroutineKind :=
  live.filter (fun g => !wgRegistered g)

/-- Which arm of the `ScheduleWithDelay` select fires first: the delay
timer, or `ctx.Done()`. -/
inductive DelayEvent
  | timerFired
  | ctxCancelled
deriving DecidableEq, Repr

/-- The goroutine body of `Scheduler.ScheduleWithDelay`: `select` on
`timer.C` and `ctx.Done()`. On fire, `s.SubmitTask(task)`; on
cancellation, `timer.Stop()` and return. Returned are the scheduler state,
the number of `SubmitTask` calls made, and whether `timer.Stop` ran. -/
def scheduleWithDelayRun (s : SchedulerM) (t : Nat) (first : DelayEvent) :
    SchedulerM × Nat × Bool :=
  match first with
  | DelayEvent.timerFired => (submitTask s t, 1, false)
  | DelayEvent.ctxCancelled => (s, 0, true)

/-- One wakeup of the `ScheduleRecurring` select: a ticker tick,
`ctx.Done()`, or the closed `s.quit` channel. -/
inductive RecurringEvent
  | tick
  | ctxDone
  | schedQuit
deriving DecidableEq, Repr

/-- The goroutine body of `Scheduler.ScheduleRecurring`, driven by the
chronological list of select wakeups: each tick performs
`s.SubmitTask(task)` and loops; `ctx.Done()` or `s.quit` returns (running
the deferred `ticker.Stop()`). Returned are the arguments of the
`SubmitTask` calls in order and whether the goroutine has returned. -/
def scheduleRecurringRun (t : Nat) : List RecurringEvent → List Nat × Bool
  | [] => ([], false)
  | RecurringEvent.tick :: rest =>
    let r := scheduleRecurringRun t rest
    (t :: r.1, r.2)
  | RecurringEvent.ctxDone :: _ => ([], true)
  | RecurringEvent.schedQuit :: _ => ([], true)

/-- The retry loop of `GetFundingStatsTask.Execute` (task.go): `for
attempt := 0; attempt <= MaxRetries; attempt++`. Per iteration: if `ctx`
is already done, send and return `ctx.Err()`; otherwise call the API
(result `api attempt`); on success send the data and return nil; on
failure, if `attempt < MaxRetries` sleep `2^attempt * BackoffBase` unless
`ctx` wins the race during the sleep (then return `ctx.Err()`). After the
loop the last error is sent and returned. `fuel` is `MaxRetries + 1 -
attempt`, the number of iterations left, so `attempt < MaxRetries` is
`fuel ≥ 2`; the `fuel = 0` base is unreachable from `statsExecute`.
Returned are the number of API attempts, the backoff sleeps performed in
order, and the returned error. -/
def statsLoop (b : Int) (api : Nat → Option GoErr)
    (ctxDoneAt : Nat → Bool) (sleepCancelledAt : Nat → Bool)
    (attempt fuel : Nat) : Nat × List Int × Option GoErr :=
  match fuel with
  | 0 => (0, [], none)
  | f + 1 =>
    if ctxDoneAt attempt then (0, [], some GoErr.ctxCanceled)
    else
      match api attempt with
      | none => (1, [], none)
      | some e =>
        if f = 0 then (1, [], some e)
        else if sleepCancelledAt attempt then (1, [], some GoErr.ctxCanceled)
        else
          let r := statsLoop b api ctxDoneAt sleepCancelledAt (attempt + 1) f
          (r.1 + 1, b * 2 ^ attempt :: r.2.1, r.2.2)

/-- `GetFundingStatsTask.Execute` entry: a negative `MaxRetries` skips the
loop entirely and returns the zero-value nil error; otherwise the loop
starts at `attempt = 0` with `MaxRetries + 1` iterations available. -/
def statsExecute (policy : RetryPolicy) (api : Nat → Option GoErr)
    (ctxDoneAt : Nat → Bool) (sleepCancelledAt : Nat → Bool) :
    Nat × List Int × Option GoErr :=
  if policy.maxRetries < 0 then (0, [], none)
  else statsLoop policy.backoffBase api ctxDoneAt sleepCancelledAt 0
    (policy.maxRetries.toNat + 1)

/-- Helper: in the retry loop with the context never cancelled and every
API call failing, a run entered at `attempt` with `f + 1` iterations left
makes `f + 1` attempts, sleeps `b * 2 ^ (attempt + i)` after the i-th of
them (the last excepted), and returns the error of the final attempt. -/
theorem statsLoop_always_fail (b : Int) (api : Nat → Option GoErr)
    (errAt : Nat → GoErr) (hfail : ∀ n, api n = some (errAt n)) :
    ∀ (f attempt : Nat),
      statsLoop b api (fun _ => false) (fun _ => false) attempt (f + 1) =
        (f + 1, (List.range f).map (fun i => b * 2 ^ (attempt + i)),
          some (errAt (attempt + f))) := by
  intro f
  induction f with
  | zero =>
    intro attempt
    simp [statsLoop, hfail]
  | succ f ih =>
    intro attempt
    rw [statsLoop]
    simp only [hfail, Bool.false_eq_true, if_false, Nat.succ_ne_zero,
      ih (attempt + 1)]
    rw [List.range_succ_eq_map, List.map_cons, List.map_map]
    refine congrArg _ (congrArg₂ _ ?_ ?_)
    · refine congrArg₂ _ (by rw [Nat.add_zero]) (List.map_congr_left ?_)
      intro i hi
      have h1 : attempt + 1 + i = attempt + Nat.succ i := by omega
      simp [Function.comp, h1]
    · have h2 : attempt + 1 + f = attempt + (f + 1) := by omega
      rw [h2]

/-- Claim C1 (amended): the worker invokes a dequeued task's `Execute`
exactly once, whether it fails or succeeds — the `MaxRetries > 0` branch
of `Scheduler.worker` is an empty stub. The retry contract the claim
describes is implemented inside `GetFundingStatsTask.Execute`: with
`maxRetries = k`, every API call failing and the context never cancelled,
exactly `k + 1` API attempts occur, the sleep after attempt `i` is
`backoffBase * 2 ^ i`, and the returned error is the last attempt's error;
when the first API call succeeds there is exactly one attempt, no sleep,
and a nil error. -/
theorem C1_amended_retry (p : RetryPolicy) (execResult : Option GoErr)
    (k : Nat) (b : Int) (api : Nat → Option GoErr) (errAt : Nat → GoErr)
    (hfail : ∀ n, api n = some (errAt n)) :
    (workerRunTask p execResult).1 = 1 ∧
    statsExecute ⟨(k : Int), b⟩ api (fun _ => false) (fun _ => false) =
      (k + 1, (List.range k).map (fun i => b * 2 ^ i), some (errAt k)) ∧
    (∀ api2 : Nat → Option GoErr, api2 0 = none →
      statsExecute ⟨(k : Int), b⟩ api2 (fun _ => false) (fun _ => false) =
        (1, [], none)) := by
  refine ⟨?_, ?_, ?_⟩
  · cases execResult <;> simp [workerRunTask]
  · have h := statsLoop_always_fail b api errAt hfail k 0
    simp only [Nat.zero_add] at h
    simp [statsExecute, h]
  · intro api2 h2
    simp [statsExecute, statsLoop, h2]

/-- Witness for C1_amended_retry at `maxRetries = 2`, `backoffBase =
100`, every attempt failing with the same API error. -/
theorem C1_amended_retry_witness :
    (workerRunTask ⟨3, 500000000⟩ (some (GoErr.apiErr 7))).1 = 1 ∧
    statsExecute ⟨((2 : Nat) : Int), 100⟩ (fun _ => some (GoErr.apiErr 7))
        (fun _ => false) (fun _ => false) =
      (2 + 1, (List.range 2).map (fun i => (100 : Int) * 2 ^ i),
        some (GoErr.apiErr 7)) ∧
    (∀ api2 : Nat → Option GoErr, api2 0 = none →
      statsExecute ⟨((2 : Nat) : Int), 100⟩ api2 (fun _ => false)
          (fun _ => false) = (1, [], none)) :=
  C1_amended_retry ⟨3, 500000000⟩ (some (GoErr.apiErr 7)) 2 100
    (fun _ => some (GoErr.apiErr 7)) (fun _ => GoErr.apiErr 7)
    (fun _ => rfl)

/-- Claim C1 counterexample: a task whose policy has `maxRetries = 3` and
whose execution fails is invoked exactly once by the worker, not the
`k + 1 = 4` times the claim states; the engine never re-invokes
`Execute`. -/
theorem C1_counterexample :
    (workerRunTask ⟨3, 500000000⟩ (some (GoErr.apiErr 7))).1 = 1 ∧
    (1 : Nat) ≠ 3 + 1 := by
  exact ⟨rfl, by decide⟩

/-- Claim C2 (amended): `SubmitTask` enqueues the task when the queue is
below capacity and silently drops it when the queue is full; neither
outcome is reported — `SubmitTask` returns nothing and `Schedule` returns
nil unconditionally, so a rejected submission is indistinguishable to the
caller from an accepted one. -/
theorem C2_amended_submit (s : SchedulerM) (t : Nat) :
    (s.taskQueue.buf.length < s.taskQueue.cap →
      (submitTask s t).taskQueue.buf = s.taskQueue.buf ++ [t]) ∧
    (s.taskQueue.cap ≤ s.taskQueue.buf.length →
      (submitTask s t).taskQueue = s.taskQueue) ∧
    (schedule s t).2 = none := by
  refine ⟨fun h => ?_, fun h => ?_, rfl⟩
  · simp [submitTask, trySend, h]
  · simp [submitTask, trySend, Nat.not_lt.mpr h]

/-- Witness for C2_amended_submit on a fresh scheduler with
`queueCapacity = 1`. -/
theorem C2_amended_submit_witness :
    (submitTask (⟨1, 1, ⟨[], 1⟩, [], false⟩ : SchedulerM) 10).taskQueue.buf =
      (⟨1, 1, ⟨[], 1⟩, [], false⟩ : SchedulerM).taskQueue.buf ++ [10] ∧
    (schedule (⟨1, 1, ⟨[], 1⟩, [], false⟩ : SchedulerM) 10).2 = none :=
  ⟨(C2_amended_submit (⟨1, 1, ⟨[], 1⟩, [], false⟩ : SchedulerM) 10).1
      (by decide),
    (C2_amended_submit (⟨1, 1, ⟨[], 1⟩, [], false⟩ : SchedulerM) 10).2.2⟩

/-- Claim C2 counterexample: with `queueCapacity = 1`, two back-to-back
submissions before any dequeue leave only the first task enqueued, and
both `Schedule` calls return nil — the caller receives no rejection
outcome for the dropped second task and cannot distinguish the two
submissions. -/
theorem C2_counterexample :
    (schedule (schedule (⟨1, 1, ⟨[], 1⟩, [], false⟩ : SchedulerM) 10).1
        20).1.taskQueue.buf = [10] ∧
    (schedule (⟨1, 1, ⟨[], 1⟩, [], false⟩ : SchedulerM) 10).2 = none ∧
    (schedule (schedule (⟨1, 1, ⟨[], 1⟩, [], false⟩ : SchedulerM) 10).1
        20).2 = none := by
  refine ⟨?_, rfl, rfl⟩
  rfl

/-- Claim C3: `Cancel` is a no-op that returns nil — it does not locate,
invalidate, or remove the named periodic handle. After registering
`FundingBook_fUSD` and calling `Cancel` on that name, the registry still
maps the name to the untouched handle. -/
theorem C3_cancel_is_noop :
    (∀ (s : SchedulerM) (n : String), cancel s n = (s, none)) ∧
    ((cancel (newPeriodicTask (⟨5, 50, ⟨[], 50⟩, [], false⟩ : SchedulerM)
          "FundingBook_fUSD" 60000000000 3 0).1
        "FundingBook_fUSD").1.periodicTask.lookup "FundingBook_fUSD" =
      some (newPeriodicTask (⟨5, 50, ⟨[], 50⟩, [], false⟩ : SchedulerM)
          "FundingBook_fUSD" 60000000000 3 0).2) := by
  refine ⟨fun s n => rfl, ?_⟩
  rfl

/-- Claim C4 counterexample: `NewScheduler(0, 0)` — both parameters
violating the claimed validity condition — succeeds and returns a
scheduler; no construction error is produced. -/
theorem C4_counterexample :
    newScheduler 0 0 =
      Except.ok (⟨0, 0, ⟨[], 0⟩, [], false⟩ : SchedulerM) := rfl

/-- Claim C4 (amended): `NewScheduler` performs no validation. For every
`workerCount` and every `queueSize ≥ 0` (including `workerCount ≤ 0` and
`queueSize = 0`) construction succeeds; a negative `queueSize` raises the
runtime panic of `make(chan Task, queueSize)` rather than returning a
construction error. -/
theorem C4_amended_construction (w q : Int) :
    (0 ≤ q → newScheduler w q =
      Except.ok (⟨w, q, ⟨[], q.toNat⟩, [], false⟩ : SchedulerM)) ∧
    (q < 0 → newScheduler w q = Except.error GoPanic.makechanSizeOutOfRange) := by
  constructor
  · intro h
    simp [newScheduler, makeChan, not_lt.mpr h, Except.map]
  · intro h
    simp [newScheduler, makeChan, h, Except.map]

/-- Witness for C4_amended_construction at `(0, 0)` and `(1, -1)`. -/
theorem C4_amended_construction_witness :
    newScheduler 0 0 =
      Except.ok (⟨0, 0, ⟨[], (0 : Int).toNat⟩, [], false⟩ : SchedulerM) ∧
    newScheduler 1 (-1) = Except.error GoPanic.makechanSizeOutOfRange :=
  ⟨(C4_amended_construction 0 0).1 (by decide),
    (C4_amended_construction 1 (-1)).2 (by decide)⟩

/-- Claim C5 counterexample: with one worker and one `ScheduleWithDelay`
timer goroutine alive, `Stop` waits for the worker but returns while the
timer goroutine may still be alive — the set of goroutines possibly alive
at return is nonempty. That goroutine does not even observe `s.quit`. -/
theorem C5_counterexample :
    stopJoin [GoroutineKind.worker, GoroutineKind.delayTimer] =
      [GoroutineKind.delayTimer] ∧
    stopJoin [GoroutineKind.worker, GoroutineKind.delayTimer] ≠ [] ∧
    observesQuit GoroutineKind.delayTimer = false := by
  refine ⟨rfl, ?_, rfl⟩
  decide

/-- Claim C5 (amended): `Stop` blocks until every worker goroutine has
exited — workers are exactly the goroutines registered in `s.wg` — but the
goroutines spawned by `ScheduleWithDelay` and `ScheduleRecurring` are not
registered in the WaitGroup, so `Stop` does not wait for them and can
return while they are still alive. -/
theorem C5_amended_stop (live : List GoroutineKind) :
    GoroutineKind.worker ∉ stopJoin live ∧
    (∀ g ∈ stopJoin live, wgRegistered g = false) ∧
    (∀ g ∈ live, wgRegistered g = false → g ∈ stopJoin live) := by
  refine ⟨?_, ?_, ?_⟩
  · intro hmem
    have h := List.mem_filter.mp hmem
    simp [wgRegistered] at h
  · intro g hg
    have h := List.mem_filter.mp hg
    simpa using h.2
  · intro g hg hreg
    refine List.mem_filter.mpr ⟨hg, ?_⟩
    simp [hreg]

/-- Witness for C5_amended_stop on a live set holding one worker and one
recurring-ticker goroutine. -/
theorem C5_amended_stop_witness :
    GoroutineKind.worker ∉
      stopJoin [GoroutineKind.worker, GoroutineKind.recurringTicker] ∧
    GoroutineKind.recurringTicker ∈
      stopJoin [GoroutineKind.worker, GoroutineKind.recurringTicker] :=
  ⟨(C5_amended_stop
      [GoroutineKind.worker, GoroutineKind.recurringTicker]).1,
    (C5_amended_stop
      [GoroutineKind.worker, GoroutineKind.recurringTicker]).2.2
      GoroutineKind.recurringTicker (by decide) rfl⟩

/-- Claim C6: in the `ScheduleWithDelay` goroutine, if `ctx.Done()` wins
the race the timer is stopped, the scheduler state is untouched and the
task is never submitted (zero `SubmitTask` calls — so zero executions);
if the timer fires first the task is submitted exactly once via
`SubmitTask`. -/
theorem C6_delay (s : SchedulerM) (t : Nat) (h : t ∉ s.taskQueue.buf) :
    ((scheduleWithDelayRun s t DelayEvent.ctxCancelled).1 = s ∧
      t ∉ (scheduleWithDelayRun s t DelayEvent.ctxCancelled).1.taskQueue.buf ∧
      (scheduleWithDelayRun s t DelayEvent.ctxCancelled).2 = (0, true)) ∧
    ((scheduleWithDelayRun s t DelayEvent.timerFired).1 = submitTask s t ∧
      (scheduleWithDelayRun s t DelayEvent.timerFired).2 = (1, false)) :=
  ⟨⟨rfl, h, rfl⟩, ⟨rfl, rfl⟩⟩

/-- Witness for C6_delay on a fresh scheduler of capacity 1 and task 7. -/
theorem C6_delay_witness :
    ((scheduleWithDelayRun (⟨1, 1, ⟨[], 1⟩, [], false⟩ : SchedulerM) 7
        DelayEvent.ctxCancelled).1 = (⟨1, 1, ⟨[], 1⟩, [], false⟩ : SchedulerM) ∧
      7 ∉ (scheduleWithDelayRun (⟨1, 1, ⟨[], 1⟩, [], false⟩ : SchedulerM) 7
        DelayEvent.ctxCancelled).1.taskQueue.buf ∧
      (scheduleWithDelayRun (⟨1, 1, ⟨[], 1⟩, [], false⟩ : SchedulerM) 7
        DelayEvent.ctxCancelled).2 = (0, true)) ∧
    ((scheduleWithDelayRun (⟨1, 1, ⟨[], 1⟩, [], false⟩ : SchedulerM) 7
        DelayEvent.timerFired).1 =
        submitTask (⟨1, 1, ⟨[], 1⟩, [], false⟩ : SchedulerM) 7 ∧
      (scheduleWithDelayRun (⟨1, 1, ⟨[], 1⟩, [], false⟩ : SchedulerM) 7
        DelayEvent.timerFired).2 = (1, false)) :=
  C6_delay (⟨1, 1, ⟨[], 1⟩, [], false⟩ : SchedulerM) 7 (by decide)

/-- Claim C7: `ShouldRun` returns true exactly when `now - lastRun ≥
interval`, and `Execute` sets `lastRun` to the time at which execution
begins, independently of the run result (the result is returned
unchanged and the interval is untouched). Both operations are single
`p.mu`-guarded critical sections, embedded as atomic steps. -/
theorem C7_should_run_execute (p : PeriodicTaskM) (now : Int) :
    (shouldRun p now = true ↔ p.interval ≤ now - p.lastRun) ∧
    (∀ r : Option GoErr,
      (periodicExecute p now r).1.lastRun = now ∧
      (periodicExecute p now r).1.interval = p.interval ∧
      (periodicExecute p now r).2 = r) :=
  ⟨by simp [shouldRun], fun r => ⟨rfl, rfl, rfl⟩⟩

/-- Helper: dropping the bindings of key `k` from an association list
leaves lookups of any other key unchanged. -/
theorem lookup_filter_ne (m : List (String × PeriodicTaskM)) (k k' : String)
    (h : k' ≠ k) :
    ((m.filter (fun p => p.1 != k)).lookup k') = m.lookup k' := by
  induction m with
  | nil => rfl
  | cons a rest ih =>
    by_cases hp : a.1 = k
    · have hk : (k' == k) = false := beq_eq_false_iff_ne.mpr h
      simp [List.filter_cons, List.lookup, hp, hk, ih]
    · by_cases hq : k' = a.1
      · simp [List.filter_cons, List.lookup, hp, hq]
      · simp [List.filter_cons, List.lookup, hp,
          beq_eq_false_iff_ne.mpr hq, ih]

/-- Helper: after the map assignment, the inserted key is bound to the
inserted handle. -/
theorem lookup_registryInsert_self (m : List (String × PeriodicTaskM))
    (k : String) (v : PeriodicTaskM) :
    (registryInsert m k v).lookup k = some v := by
  simp [registryInsert, List.lookup]

/-- Helper: the map assignment leaves every other key's binding
unchanged. -/
theorem lookup_registryInsert_ne (m : List (String × PeriodicTaskM))
    (k k' : String) (v : PeriodicTaskM) (h : k' ≠ k) :
    (registryInsert m k v).lookup k' = m.lookup k' := by
  have hk : (k' == k) = false := beq_eq_false_iff_ne.mpr h
  simp [registryInsert, List.lookup, hk, lookup_filter_ne m k k' h]

/-- Claim C8 (amended): registering a periodic task creates a handle with
`lastRun` equal to the registration time and the fixed retry policy;
registering a second task under an already-registered name replaces the
prior binding in the registry with the new handle, and bindings of other
names are unchanged. Handles carry no timer or cancellation token, so
nothing is cancelled by the replacement. -/
theorem C8_amended_register (s : SchedulerM) (name : String)
    (i1 p1 now1 i2 p2 now2 : Int) :
    (newPeriodicTask s name i1 p1 now1).2.lastRun = now1 ∧
    (newPeriodicTask s name i1 p1 now1).1.periodicTask.lookup name =
      some (newPeriodicTask s name i1 p1 now1).2 ∧
    (newPeriodicTask (newPeriodicTask s name i1 p1 now1).1 name i2 p2
        now2).1.periodicTask.lookup name =
      some (newPeriodicTask (newPeriodicTask s name i1 p1 now1).1 name i2 p2
        now2).2 ∧
    (∀ k, k ≠ name →
      (newPeriodicTask s name i1 p1 now1).1.periodicTask.lookup k =
        s.periodicTask.lookup k) := by
  refine ⟨rfl, ?_, ?_, ?_⟩
  · exact lookup_registryInsert_self _ _ _
  · exact lookup_registryInsert_self _ _ _
  · intro k hk
    exact lookup_registryInsert_ne _ _ _ _ hk

/-- Witness for C8_amended_register: registering "A" at time 5 on a fresh
scheduler; the handle records `lastRun = 5` and the binding of "B" is
unchanged. -/
theorem C8_amended_register_witness :
    (newPeriodicTask (⟨5, 50, ⟨[], 50⟩, [], false⟩ : SchedulerM)
      "A" 2 1 5).2.lastRun = 5 ∧
    (newPeriodicTask (⟨5, 50, ⟨[], 50⟩, [], false⟩ : SchedulerM)
        "A" 2 1 5).1.periodicTask.lookup "B" =
      (⟨5, 50, ⟨[], 50⟩, [], false⟩ : SchedulerM).periodicTask.lookup "B" :=
  ⟨(C8_amended_register (⟨5, 50, ⟨[], 50⟩, [], false⟩ : SchedulerM)
      "A" 2 1 5 2 1 9).1,
    (C8_amended_register (⟨5, 50, ⟨[], 50⟩, [], false⟩ : SchedulerM)
      "A" 2 1 5 2 1 9).2.2.2 "B" (by decide)⟩

/-- Claim C8 counterexample: `PeriodicTask` has no timer or cancellation
token (its fields are the `BaseTask` data, `interval`, `lastRun`,
`runFunc`, `mu`), so registering a duplicate of "A" cancels nothing: the
handle from the first registration still reports `ShouldRun = true` and
still executes normally after "A" has been re-registered, while the
registry holds the new handle with the new registration time. -/
theorem C8_counterexample :
    shouldRun (newPeriodicTask (⟨5, 50, ⟨[], 50⟩, [], false⟩ : SchedulerM)
      "A" 2 1 5).2 20 = true ∧
    (periodicExecute
        (newPeriodicTask (⟨5, 50, ⟨[], 50⟩, [], false⟩ : SchedulerM)
          "A" 2 1 5).2 30 (some (GoErr.apiErr 1))).2 = some (GoErr.apiErr 1) ∧
    (newPeriodicTask
        (newPeriodicTask (⟨5, 50, ⟨[], 50⟩, [], false⟩ : SchedulerM)
          "A" 2 1 5).1 "A" 2 1 9).2.lastRun = 9 := by
  refine ⟨?_, rfl, rfl⟩
  decide

/-- Claim C9: the `ScheduleRecurring` goroutine submits the task via
`SubmitTask` once per tick, in order, for every tick preceding the first
`ctx.Done()` or `s.quit` wakeup, and it has returned (running the
deferred `ticker.Stop()`) exactly when such a wakeup occurred. -/
theorem C9_recurring (t : Nat) (evs : List RecurringEvent) :
    (scheduleRecurringRun t evs).1 =
      List.replicate
        (evs.takeWhile (fun e => decide (e = RecurringEvent.tick))).length t ∧
    ((scheduleRecurringRun t evs).2 = true ↔
      ∃ e ∈ evs, e ≠ RecurringEvent.tick) := by
  induction evs with
  | nil => simp [scheduleRecurringRun]
  | cons e rest ih =>
    cases e with
    | tick =>
      constructor
      · simp [scheduleRecurringRun, List.takeWhile_cons, ih.1,
          List.replicate_succ]
      · simpa [scheduleRecurringRun] using ih.2
    | ctxDone =>
      constructor
      · simp [scheduleRecurringRun, List.takeWhile_cons]
      · simp [scheduleRecurringRun]
    | schedQuit =>
      constructor
      · simp [scheduleRecurringRun, List.takeWhile_cons]
      · simp [scheduleRecurringRun]

/-- Claim C10: a second `Stop` on the same scheduler closes the already
closed `quit` channel and panics, and the shutdown path of `main` —
`defer scheduler.Stop()` plus the explicit `scheduler.Stop()` on the
termination signal — performs exactly this double call, so it ends in the
close-of-closed-channel panic. -/
theorem C10_double_stop :
    mainShutdownStops = Except.error GoPanic.closeOfClosedChannel ∧
    (∀ s : SchedulerM,
      stop { s with quitClosed := true } =
        Except.error GoPanic.closeOfClosedChannel) :=
  ⟨rfl, fun _ => rfl⟩

end BitfinexScheduler
